import Mathlib

/-!
Shallow embedding of the temperature-checker decision engine
(`temp_checker.py` and the admin utility `set_window_state.py`).

Modelling conventions:
* Temperatures (Python floats, only ever compared, never combined
  arithmetically) are embedded as rationals `ℚ`.
* Timestamps (`datetime`) are embedded as integer seconds `ℤ`; the
  time-of-day used by the quiet-hours check is `t % 86400`, and
  `datetime` subtraction (`.total_seconds()`) is integer subtraction.
* The SQLite database is a record: an optional singleton `app_state`
  row (`UPDATE ... WHERE id = 1` on a missing row changes nothing)
  plus append-only lists for temperature readings and notifications.
* Python truthiness of optional string arguments (`if window_state:`)
  is modelled by `truthy`: present and non-empty.
* The external collaborators (weather fetch, Telegram send, clock) are
  passed in as values: the weather result as `Option WeatherData`, the
  send result as a `Bool`, the clock as a `now : ℤ` parameter.
* The orchestration functions additionally return a list of `Effect`s,
  recording which collaborator/store operations were performed and in
  which order.
* Rendering of a temperature into message text abstracts Python float
  formatting by `toString` on `ℚ`; no claim depends on the digits.
-/

namespace TempChecker

abbrev Temp := ℚ

/-- `WeatherData` dataclass from `temp_checker.py`. -/
structure WeatherData where
  current_temp : Temp
  daily_high : Temp
  daily_low : Temp
deriving Repr, DecidableEq

/-- `AppState` dataclass from `temp_checker.py` (in-memory view). -/
structure AppState where
  window_state : String
  mode : String
  last_notification_type : Option String
  last_notification_time : Option ℤ
deriving Repr, DecidableEq

/-- `Config` dataclass from `temp_checker.py`. -/
structure Config where
  db_path : String
  zip_code : String
  telegram_token : String
  telegram_chat_id : String
  close_windows_temp : Temp
  open_windows_temp : Temp
  forecast_high_threshold : Temp
  heating_close_temp : Temp
  heating_open_temp : Temp
  heating_forecast_low_threshold : Temp
  quiet_start_hour : ℤ
  quiet_start_minute : ℤ
  quiet_end_hour : ℤ
  quiet_end_minute : ℤ
  default_mode : String
deriving Repr, DecidableEq

/-- `TemperatureChecker.check_cooling_mode_conditions`. -/
def check_cooling_mode_conditions (config : Config) (weather_data : WeatherData)
    (app_state : AppState) : Option String :=
  if app_state.window_state = "open" ∧
     weather_data.current_temp ≥ config.close_windows_temp ∧
     weather_data.daily_high > config.forecast_high_threshold then
    some "close_windows"
  else if app_state.window_state = "closed" ∧
          weather_data.current_temp ≤ config.open_windows_temp then
    some "open_windows"
  else
    none

/-- `TemperatureChecker.check_heating_mode_conditions`. -/
def check_heating_mode_conditions (config : Config) (weather_data : WeatherData)
    (app_state : AppState) : Option String :=
  if app_state.window_state = "open" ∧
     weather_data.current_temp ≤ config.heating_close_temp then
    some "close_windows"
  else if app_state.window_state = "closed" ∧
          weather_data.current_temp ≥ config.heating_open_temp ∧
          weather_data.daily_high < config.heating_forecast_low_threshold then
    some "open_windows"
  else
    none

/-- Sample configuration: the defaults of `_load_config_from_env`
(close 78, open 76, forecast-high 80; heating close 55, open 65,
forecast-low 70; quiet hours 22:30 to 07:00; default mode cooling). -/
def sampleConfig : Config :=
  { db_path := "temperature_checker.db"
    zip_code := "10001"
    telegram_token := "token"
    telegram_chat_id := "chat"
    close_windows_temp := 78
    open_windows_temp := 76
    forecast_high_threshold := 80
    heating_close_temp := 55
    heating_open_temp := 65
    heating_forecast_low_threshold := 70
    quiet_start_hour := 22
    quiet_start_minute := 30
    quiet_end_hour := 7
    quiet_end_minute := 0
    default_mode := "cooling" }

/-- Python `datetime.time(h, m)` as seconds since midnight; `time`
objects compare lexicographically on (hour, minute, second), which for
our second-granularity model is numeric comparison of this value. -/
def timeOfDaySecs (hour minute : ℤ) : ℤ :=
  hour * 3600 + minute * 60

/-- `current_time.time()`: the time-of-day of an absolute timestamp. -/
def timeOfDay (t : ℤ) : ℤ :=
  t % 86400

/-- `TemperatureChecker.is_quiet_hours`. -/
def is_quiet_hours (config : Config) (current_time : ℤ) : Bool :=
  let time_only := timeOfDay current_time
  let quiet_start := timeOfDaySecs config.quiet_start_hour config.quiet_start_minute
  let quiet_end := timeOfDaySecs config.quiet_end_hour config.quiet_end_minute
  if quiet_start > quiet_end then
    quiet_start ≤ time_only ∨ time_only ≤ quiet_end
  else
    quiet_start ≤ time_only ∧ time_only ≤ quiet_end

/-- `TemperatureChecker.should_send_notification`.  The Python guard
`app_state.last_notification_type == notification_type and
app_state.last_notification_time` requires the recorded type to equal
the proposed one and the recorded time to be present (`datetime`
values are always truthy); `time_diff.total_seconds() < 1800` is the
30-minute duplicate-suppression window. -/
def should_send_notification (config : Config) (notification_type : String)
    (app_state : AppState) (current_time : ℤ) : Bool :=
  if is_quiet_hours config current_time then
    false
  else
    match app_state.last_notification_type, app_state.last_notification_time with
    | some last_type, some last_time =>
      if last_type = notification_type ∧ current_time - last_time < 1800 then
        false
      else
        true
    | _, _ => true

/-- Rendering of a temperature figure into message text (abstracts
Python float formatting; no claim depends on the exact digits). -/
def tempText (t : Temp) : String :=
  toString t

/-- `TemperatureChecker.create_notification_message`. -/
def create_notification_message (notification_type : String)
    (weather_data : WeatherData) (mode : String) : String :=
  let pair :=
    if notification_type = "close_windows" then
      if mode = "cooling" then
        ("🌡️", "Time to close the windows and turn on the AC!")
      else
        ("🥶", "Getting too cold! Time to close the windows and turn on heat.")
    else
      if mode = "cooling" then
        ("🌬️", "Perfect time to open the windows and enjoy the fresh air!")
      else
        ("☀️", "Nice and warm! Perfect time to open the windows.")
  pair.1 ++ " <b>" ++
    (if notification_type = "close_windows" then "Close" else "Open") ++
    " Windows</b>\n\n" ++
    "Current temperature: " ++ tempText weather_data.current_temp ++ "°F\n" ++
    "Daily high forecast: " ++ tempText weather_data.daily_high ++ "°F\n\n" ++
    pair.2

/-- One row of the `app_state` table (singleton, `id = 1`). -/
structure AppStateRow where
  window_state : String
  mode : String
  last_notification_type : Option String
  last_notification_time : Option ℤ
  updated_at : Option ℤ
deriving Repr, DecidableEq

/-- One row of the `temperature_readings` table. -/
structure TemperatureReading where
  current_temp : Temp
  daily_high_forecast : Temp
  daily_low_forecast : Temp
  zip_code : String
deriving Repr, DecidableEq

/-- One row of the `notifications` table. -/
structure NotificationRecord where
  notification_type : String
  current_temp : Temp
  forecast_high : Temp
  forecast_low : Temp
  message : String
  sent_successfully : Bool
  error_message : Option String
deriving Repr, DecidableEq

/-- The SQLite database: the optional singleton `app_state` row plus
the two append-only history tables. -/
structure DBState where
  app : Option AppStateRow
  temperature_readings : List TemperatureReading
  notifications : List NotificationRecord
deriving Repr, DecidableEq

/-- Python truthiness of an optional string argument
(`if window_state:`): present and non-empty. -/
def truthy : Option String → Bool
  | some s => s ≠ ""
  | none => false

/-- `DatabaseAdapter.get_app_state`: read the singleton row, or return
the default state (windows closed, configured default mode, no
notification history) when the row is absent. -/
def get_app_state (db : DBState) (default_mode : String) : AppState :=
  match db.app with
  | some row =>
    { window_state := row.window_state
      mode := row.mode
      last_notification_type := row.last_notification_type
      last_notification_time := row.last_notification_time }
  | none =>
    { window_state := "closed"
      mode := default_mode
      last_notification_type := none
      last_notification_time := none }

/-- `DatabaseAdapter.update_app_state`: each truthy argument adds its
column to the `UPDATE`; a truthy `last_notification_type` also stamps
`last_notification_time = now`; if any column was added, `updated_at`
is stamped and the `UPDATE ... WHERE id = 1` runs (affecting nothing
when the row is absent); otherwise no statement is executed at all. -/
def update_app_state (db : DBState)
    (window_state mode last_notification_type : Option String) (now : ℤ) :
    DBState :=
  if truthy window_state || truthy mode || truthy last_notification_type then
    { db with app := db.app.map fun row =>
      { window_state :=
          if truthy window_state then window_state.getD row.window_state
          else row.window_state
        mode := if truthy mode then mode.getD row.mode else row.mode
        last_notification_type :=
          if truthy last_notification_type then last_notification_type
          else row.last_notification_type
        last_notification_time :=
          if truthy last_notification_type then some now
          else row.last_notification_time
        updated_at := some now } }
  else
    db

/-- `DatabaseAdapter.record_temperature`: append a reading row. -/
def record_temperature (db : DBState) (weather_data : WeatherData)
    (zip_code : String) : DBState :=
  { db with temperature_readings := db.temperature_readings ++
      [{ current_temp := weather_data.current_temp
         daily_high_forecast := weather_data.daily_high
         daily_low_forecast := weather_data.daily_low
         zip_code := zip_code }] }

/-- `DatabaseAdapter.record_notification`: append a notification row. -/
def record_notification (db : DBState) (notification_type : String)
    (current_temp forecast_high forecast_low : Temp) (message : String)
    (sent_successfully : Bool) (error_message : Option String) : DBState :=
  { db with notifications := db.notifications ++
      [{ notification_type := notification_type
         current_temp := current_temp
         forecast_high := forecast_high
         forecast_low := forecast_low
         message := message
         sent_successfully := sent_successfully
         error_message := error_message }] }

/-- `set_window_state` from `set_window_state.py`: force the window
state and stamp `updated_at` on the singleton row. -/
def set_window_state (db : DBState) (state : String) (now : ℤ) : DBState :=
  { db with app := db.app.map fun row =>
      { row with window_state := state, updated_at := some now } }

/-- `set_mode` from `set_window_state.py`: force the mode and stamp
`updated_at` on the singleton row. -/
def set_mode (db : DBState) (mode : String) (now : ℤ) : DBState :=
  { db with app := db.app.map fun row =>
      { row with mode := mode, updated_at := some now } }

/-- `reset_notification_state` from `set_window_state.py`: clear both
notification-history fields and stamp `updated_at`. -/
def reset_notification_state (db : DBState) (now : ℤ) : DBState :=
  { db with app := db.app.map fun row =>
      { row with last_notification_type := none,
                 last_notification_time := none,
                 updated_at := some now } }

/-- The both-nil-or-both-set invariant on the notification-history
fields of the singleton row. -/
def notifInvariant (row : AppStateRow) : Bool :=
  row.last_notification_type.isSome == row.last_notification_time.isSome

/-- `notifInvariant` lifted to the database (vacuous without a row). -/
def dbInvariant (db : DBState) : Bool :=
  match db.app with
  | some row => notifInvariant row
  | none => true

/-- Observable collaborator/store operations of one invocation, in
execution order. -/
inductive Effect where
  | fetchWeather (zip_code : String)
  | recordTemperature (weather_data : WeatherData) (zip_code : String)
  | getAppState
  | sendMessage (message : String)
  | recordNotification (notification_type message : String) (success : Bool)
  | updateAppState (window_state mode last_notification_type : Option String)
deriving Repr, DecidableEq

/-- `TemperatureChecker.process_notification`: compose the message,
send it (`send_result` is the collaborator's reply), always append a
notification record, and only on success update the app state.
Returns the final database, the success flag, and the effects. -/
def process_notification (config : Config) (db : DBState)
    (notification_type : String) (weather_data : WeatherData)
    (app_state : AppState) (send_result : Bool) (now : ℤ) :
    DBState × Bool × List Effect :=
  let message := create_notification_message notification_type weather_data
    app_state.mode
  let success := send_result
  let db1 := record_notification db notification_type
    weather_data.current_temp weather_data.daily_high weather_data.daily_low
    message success none
  if success then
    let new_window_state :=
      if notification_type = "close_windows" then "closed" else "open"
    let db2 := update_app_state db1 (some new_window_state) none
      (some notification_type) now
    (db2, success,
      [Effect.sendMessage message,
       Effect.recordNotification notification_type message success,
       Effect.updateAppState (some new_window_state) none
         (some notification_type)])
  else
    (db1, success,
      [Effect.sendMessage message,
       Effect.recordNotification notification_type message success])

/-- `TemperatureChecker.check_and_notify`: fetch weather (given here
as `weather`), stop early on failure; otherwise record the reading,
load the state, evaluate the mode-specific rules, gate temporally, and
process the notification if one is proposed and permitted. -/
def check_and_notify (config : Config) (db : DBState)
    (weather : Option WeatherData) (send_result : Bool) (now : ℤ) :
    DBState × List Effect :=
  match weather with
  | none => (db, [Effect.fetchWeather config.zip_code])
  | some weather_data =>
    let db1 := record_temperature db weather_data config.zip_code
    let app_state := get_app_state db1 config.default_mode
    let notification_type : Option String :=
      if app_state.mode = "cooling" then
        check_cooling_mode_conditions config weather_data app_state
      else if app_state.mode = "heating" then
        check_heating_mode_conditions config weather_data app_state
      else
        none
    let base := [Effect.fetchWeather config.zip_code,
                 Effect.recordTemperature weather_data config.zip_code,
                 Effect.getAppState]
    match notification_type with
    | some nt =>
      if should_send_notification config nt app_state now then
        let r := process_notification config db1 nt weather_data app_state
          send_result now
        (r.1, base ++ r.2.2)
      else
        (db1, base)
    | none => (db1, base)

/-- In a run's effect trace, no app-state update happens before the
first message send (scanning from the head, an `updateAppState` must
be preceded by a `sendMessage`). -/
def noUpdateBeforeSend : List Effect → Bool
  | [] => true
  | Effect.updateAppState _ _ _ :: _ => false
  | Effect.sendMessage _ :: _ => true
  | _ :: rest => noUpdateBeforeSend rest

/-- A sample database: singleton row with windows open, cooling mode,
no notification history, no `updated_at` stamp yet. -/
def sampleDB : DBState :=
  { app := some
      { window_state := "open"
        mode := "cooling"
        last_notification_type := none
        last_notification_time := none
        updated_at := none }
    temperature_readings := []
    notifications := [] }

/-- A sample database whose mode is neither cooling nor heating. -/
def sampleDBOff : DBState :=
  { app := some
      { window_state := "open"
        mode := "off"
        last_notification_type := none
        last_notification_time := none
        updated_at := none }
    temperature_readings := []
    notifications := [] }

/-- C1: in cooling mode, the threshold evaluation returns
`close_windows` iff windows are open, the current temperature is at or
above `close_windows_temp` (inclusive), and the daily high is strictly
above `forecast_high_threshold`; returns `open_windows` iff windows
are closed and the current temperature is at or below
`open_windows_temp`; otherwise returns none.  The concrete conjuncts
pin the boundaries: current 78 = close threshold triggers, daily high
80 = forecast threshold does not. -/
theorem cooling_mode_threshold_spec (config : Config)
    (weather_data : WeatherData) (app_state : AppState) :
    (check_cooling_mode_conditions config weather_data app_state =
        some "close_windows" ↔
      app_state.window_state = "open" ∧
      weather_data.current_temp ≥ config.close_windows_temp ∧
      weather_data.daily_high > config.forecast_high_threshold) ∧
    (check_cooling_mode_conditions config weather_data app_state =
        some "open_windows" ↔
      app_state.window_state = "closed" ∧
      weather_data.current_temp ≤ config.open_windows_temp) ∧
    (check_cooling_mode_conditions config weather_data app_state = none ↔
      ¬(app_state.window_state = "open" ∧
        weather_data.current_temp ≥ config.close_windows_temp ∧
        weather_data.daily_high > config.forecast_high_threshold) ∧
      ¬(app_state.window_state = "closed" ∧
        weather_data.current_temp ≤ config.open_windows_temp)) ∧
    check_cooling_mode_conditions sampleConfig ⟨78, 85, 65⟩
      ⟨"open", "cooling", none, none⟩ = some "close_windows" ∧
    check_cooling_mode_conditions sampleConfig ⟨78, 80, 65⟩
      ⟨"open", "cooling", none, none⟩ = none := by
  refine ⟨?_, ?_, ?_, by decide, by decide⟩ <;>
    unfold check_cooling_mode_conditions <;>
    split_ifs with h1 h2 <;> simp_all

/-- C2: in heating mode, the threshold evaluation returns
`close_windows` iff windows are open and the current temperature is at
or below `heating_close_temp`; returns `open_windows` iff windows are
closed, the current temperature is at or above `heating_open_temp`,
and the daily high is strictly below
`heating_forecast_low_threshold`; otherwise none.  Concretely, with
windows closed, current 68 and daily high 80 against a forecast-low
threshold of 70, nothing is proposed. -/
theorem heating_mode_threshold_spec (config : Config)
    (weather_data : WeatherData) (app_state : AppState) :
    (check_heating_mode_conditions config weather_data app_state =
        some "close_windows" ↔
      app_state.window_state = "open" ∧
      weather_data.current_temp ≤ config.heating_close_temp) ∧
    (check_heating_mode_conditions config weather_data app_state =
        some "open_windows" ↔
      app_state.window_state = "closed" ∧
      weather_data.current_temp ≥ config.heating_open_temp ∧
      weather_data.daily_high < config.heating_forecast_low_threshold) ∧
    (check_heating_mode_conditions config weather_data app_state = none ↔
      ¬(app_state.window_state = "open" ∧
        weather_data.current_temp ≤ config.heating_close_temp) ∧
      ¬(app_state.window_state = "closed" ∧
        weather_data.current_temp ≥ config.heating_open_temp ∧
        weather_data.daily_high < config.heating_forecast_low_threshold)) ∧
    check_heating_mode_conditions sampleConfig ⟨68, 80, 50⟩
      ⟨"closed", "heating", none, none⟩ = none := by
  refine ⟨?_, ?_, ?_, by decide⟩ <;>
    unfold check_heating_mode_conditions <;>
    split_ifs with h1 h2 <;> simp_all

/-- C3: the temporal gate permits sending iff the time is not within
quiet hours and it is not the case that the proposed type equals the
recorded `last_notification_type` with `last_notification_time` set
and strictly less than 30 minutes (1800 s) elapsed.  Concretely (at
08:00:01, outside the sample quiet hours): a same-type notification
exactly 30 minutes and 1 second after the last one is allowed, and a
different-type notification is allowed one second after the last. -/
theorem temporal_gate_spec (config : Config) (notification_type : String)
    (app_state : AppState) (current_time : ℤ) :
    (should_send_notification config notification_type app_state current_time
        = true ↔
      (is_quiet_hours config current_time = false ∧
       ¬(app_state.last_notification_type = some notification_type ∧
         ∃ last_time, app_state.last_notification_time = some last_time ∧
           current_time - last_time < 1800))) ∧
    should_send_notification sampleConfig "close_windows"
      ⟨"open", "cooling", some "close_windows", some 27000⟩ 28801 = true ∧
    should_send_notification sampleConfig "close_windows"
      ⟨"open", "cooling", some "open_windows", some 28800⟩ 28801 = true := by
  refine ⟨?_, by decide, by decide⟩
  obtain ⟨ws, md, lnt, lntt⟩ := app_state
  unfold should_send_notification
  cases hq : is_quiet_hours config current_time <;>
    rcases lnt with _ | lt <;> rcases lntt with _ | ltime <;>
      split_ifs <;> simp_all <;> tauto

/-- C4: a configured quiet window whose start time-of-day is after its
end time-of-day wraps midnight (quiet iff now >= start or now <= end);
otherwise quiet iff start <= now <= end, all boundaries inclusive.
Concretely for the sample window 22:30 to 07:00: 23:00 and 07:00 are
quiet, 07:01 and 22:29 are not. -/
theorem quiet_hours_spec (config : Config) (tod : ℤ)
    (h0 : 0 ≤ tod) (h1 : tod < 86400) :
    (timeOfDaySecs config.quiet_start_hour config.quiet_start_minute >
        timeOfDaySecs config.quiet_end_hour config.quiet_end_minute →
      (is_quiet_hours config tod = true ↔
        timeOfDaySecs config.quiet_start_hour config.quiet_start_minute ≤ tod ∨
        tod ≤ timeOfDaySecs config.quiet_end_hour config.quiet_end_minute)) ∧
    (timeOfDaySecs config.quiet_start_hour config.quiet_start_minute ≤
        timeOfDaySecs config.quiet_end_hour config.quiet_end_minute →
      (is_quiet_hours config tod = true ↔
        timeOfDaySecs config.quiet_start_hour config.quiet_start_minute ≤ tod ∧
        tod ≤ timeOfDaySecs config.quiet_end_hour config.quiet_end_minute)) ∧
    is_quiet_hours sampleConfig (23 * 3600) = true ∧
    is_quiet_hours sampleConfig (7 * 3600) = true ∧
    is_quiet_hours sampleConfig (7 * 3600 + 60) = false ∧
    is_quiet_hours sampleConfig (22 * 3600 + 29 * 60) = false := by
  have ht : timeOfDay tod = tod := Int.emod_eq_of_lt h0 h1
  refine ⟨?_, ?_, by decide, by decide, by decide, by decide⟩
  · intro hcmp
    simp only [is_quiet_hours, ht]
    split_ifs
    simp
  · intro hcmp
    simp only [is_quiet_hours, ht]
    split_ifs with hc
    · exact absurd hc (not_lt.mpr hcmp)
    · simp

theorem update_app_state_notifications (db : DBState)
    (ws md lnt : Option String) (now : ℤ) :
    (update_app_state db ws md lnt now).notifications = db.notifications := by
  unfold update_app_state
  split_ifs <;> rfl

theorem update_app_state_readings (db : DBState)
    (ws md lnt : Option String) (now : ℤ) :
    (update_app_state db ws md lnt now).temperature_readings =
      db.temperature_readings := by
  unfold update_app_state
  split_ifs <;> rfl

theorem update_app_state_app_pos (db : DBState)
    (ws md lnt : Option String) (now : ℤ)
    (hu : (truthy ws || truthy md || truthy lnt) = true) :
    (update_app_state db ws md lnt now).app = db.app.map fun row =>
      { window_state :=
          if truthy ws then ws.getD row.window_state else row.window_state
        mode := if truthy md then md.getD row.mode else row.mode
        last_notification_type :=
          if truthy lnt then lnt else row.last_notification_type
        last_notification_time :=
          if truthy lnt then some now else row.last_notification_time
        updated_at := some now } := by
  unfold update_app_state
  rw [if_pos hu]

theorem update_app_state_neg (db : DBState)
    (ws md lnt : Option String) (now : ℤ)
    (hu : (truthy ws || truthy md || truthy lnt) = false) :
    update_app_state db ws md lnt now = db := by
  unfold update_app_state
  rw [if_neg (by simp [hu])]

theorem process_notification_app_map_mode (config : Config) (db : DBState)
    (nt : String) (wd : WeatherData) (st : AppState) (send_result : Bool)
    (now : ℤ) :
    (process_notification config db nt wd st send_result now).1.app.map
        AppStateRow.mode = db.app.map AppStateRow.mode := by
  cases send_result <;> cases hdb : db.app <;>
    simp [process_notification, record_notification, update_app_state, truthy,
      hdb] <;> try (split_ifs <;> simp)

theorem process_notification_app_of_failure (config : Config) (db : DBState)
    (nt : String) (wd : WeatherData) (st : AppState) (now : ℤ) :
    (process_notification config db nt wd st false now).1.app = db.app := rfl

theorem process_notification_trace_head (config : Config) (db : DBState)
    (nt : String) (wd : WeatherData) (st : AppState) (send_result : Bool)
    (now : ℤ) :
    ∃ m rest, (process_notification config db nt wd st send_result now).2.2 =
      Effect.sendMessage m :: rest := by
  cases send_result <;> exact ⟨_, _, rfl⟩

/-- C5: processing a notification always appends a `NotificationRecord`
carrying the composed message and the actual success flag; the app
state is updated iff the send succeeded — on success the window state
becomes closed for `close_windows` and open for `open_windows`, and
the last-notification fields are stamped with the sent type and now;
on failure the app state is untouched. -/
theorem commit_protocol_spec (config : Config) (db : DBState)
    (notification_type : String) (weather_data : WeatherData)
    (app_state : AppState) (send_result : Bool) (now : ℤ) :
    ((process_notification config db notification_type weather_data app_state
        send_result now).2.1 = send_result) ∧
    ((process_notification config db notification_type weather_data app_state
        send_result now).1.notifications =
      db.notifications ++
        [{ notification_type := notification_type
           current_temp := weather_data.current_temp
           forecast_high := weather_data.daily_high
           forecast_low := weather_data.daily_low
           message := create_notification_message notification_type
             weather_data app_state.mode
           sent_successfully := send_result
           error_message := none }]) ∧
    (send_result = false →
      (process_notification config db notification_type weather_data app_state
        send_result now).1.app = db.app) ∧
    (send_result = true → notification_type = "close_windows" →
      (process_notification config db notification_type weather_data app_state
          send_result now).1.app = db.app.map fun row =>
        { window_state := "closed"
          mode := row.mode
          last_notification_type := some "close_windows"
          last_notification_time := some now
          updated_at := some now }) ∧
    (send_result = true → notification_type = "open_windows" →
      (process_notification config db notification_type weather_data app_state
          send_result now).1.app = db.app.map fun row =>
        { window_state := "open"
          mode := row.mode
          last_notification_type := some "open_windows"
          last_notification_time := some now
          updated_at := some now }) := by
  refine ⟨?_, ?_, ?_, ?_, ?_⟩
  · cases send_result <;> rfl
  · cases send_result
    · rfl
    · simp [process_notification, update_app_state_notifications,
        record_notification]
  · intro h
    subst h
    rfl
  · intro hs hnt
    subst hs
    subst hnt
    cases hdb : db.app <;>
      simp [process_notification, record_notification, update_app_state,
        truthy, hdb]
  · intro hs hnt
    subst hs
    subst hnt
    cases hdb : db.app <;>
      simp [process_notification, record_notification, update_app_state,
        truthy, hdb]

theorem check_and_notify_shape (config : Config) (db : DBState)
    (weather : Option WeatherData) (send_result : Bool) (now : ℤ) :
    check_and_notify config db weather send_result now =
        (db, [Effect.fetchWeather config.zip_code]) ∨
    (∃ weather_data,
      check_and_notify config db weather send_result now =
        (record_temperature db weather_data config.zip_code,
         [Effect.fetchWeather config.zip_code,
          Effect.recordTemperature weather_data config.zip_code,
          Effect.getAppState])) ∨
    (∃ weather_data nt,
      check_and_notify config db weather send_result now =
        ((process_notification config
            (record_temperature db weather_data config.zip_code) nt
            weather_data
            (get_app_state (record_temperature db weather_data config.zip_code)
              config.default_mode) send_result now).1,
         Effect.fetchWeather config.zip_code ::
           Effect.recordTemperature weather_data config.zip_code ::
           Effect.getAppState ::
           (process_notification config
             (record_temperature db weather_data config.zip_code) nt
             weather_data
             (get_app_state
               (record_temperature db weather_data config.zip_code)
               config.default_mode) send_result now).2.2)) := by
  cases weather with
  | none => exact Or.inl rfl
  | some wd =>
    right
    simp only [check_and_notify]
    split
    · split_ifs
      · exact Or.inr ⟨wd, _, rfl⟩
      · exact Or.inl ⟨wd, rfl⟩
    · exact Or.inl ⟨wd, rfl⟩

/-- C6: across the decision engine's paths (a `check_and_notify`
invocation and notification processing), the `mode` field is never
written; a failed send leaves the app-state row untouched, so the
window state can only change as a side effect of a successfully sent
notification, and in the effect trace no app-state update ever
precedes the message send. -/
theorem decision_engine_frame_spec (config : Config) (db : DBState)
    (weather : Option WeatherData) (send_result : Bool) (now : ℤ)
    (notification_type : String) (weather_data : WeatherData)
    (app_state : AppState) :
    ((check_and_notify config db weather send_result now).1.app.map
        AppStateRow.mode = db.app.map AppStateRow.mode) ∧
    ((process_notification config db notification_type weather_data app_state
        send_result now).1.app.map AppStateRow.mode =
      db.app.map AppStateRow.mode) ∧
    (send_result = false →
      (check_and_notify config db weather send_result now).1.app = db.app) ∧
    (send_result = false →
      (process_notification config db notification_type weather_data app_state
        send_result now).1.app = db.app) ∧
    ((check_and_notify config db weather send_result now).1.app.map
        AppStateRow.window_state ≠ db.app.map AppStateRow.window_state →
      send_result = true ∧
      ∃ m, Effect.sendMessage m ∈
        (check_and_notify config db weather send_result now).2) ∧
    noUpdateBeforeSend (check_and_notify config db weather send_result now).2
      = true := by
  obtain h | ⟨wd, h⟩ | ⟨wd, nt, h⟩ :=
    check_and_notify_shape config db weather send_result now
  · rw [h]
    exact ⟨rfl, process_notification_app_map_mode .., fun _ => rfl,
      fun hs => by subst hs; rfl, fun hne => absurd rfl hne, rfl⟩
  · rw [h]
    exact ⟨rfl, process_notification_app_map_mode .., fun _ => rfl,
      fun hs => by subst hs; rfl, fun hne => absurd rfl hne, rfl⟩
  · rw [h]
    refine ⟨process_notification_app_map_mode ..,
      process_notification_app_map_mode .., ?_,
      fun hs => by subst hs; rfl, ?_, ?_⟩
    · intro hs
      subst hs
      rfl
    · intro hne
      cases send_result with
      | false => exact absurd rfl hne
      | true =>
        obtain ⟨m, rest, hm⟩ := process_notification_trace_head config
          (record_temperature db wd config.zip_code) nt wd
          (get_app_state (record_temperature db wd config.zip_code)
            config.default_mode) true now
        exact ⟨rfl, m, by simp [hm]⟩
    · obtain ⟨m, rest, hm⟩ := process_notification_trace_head config
        (record_temperature db wd config.zip_code) nt wd
        (get_app_state (record_temperature db wd config.zip_code)
          config.default_mode) send_result now
      simp only [hm]
      rfl

/-- C8: when the weather source returns no snapshot, the invocation
ends cleanly with no state mutation: the database is unchanged and
the only effect is the failed fetch — no temperature reading, no
app-state read or write, and no notification attempt. -/
theorem weather_failure_spec (config : Config) (db : DBState)
    (send_result : Bool) (now : ℤ) :
    check_and_notify config db none send_result now =
      (db, [Effect.fetchWeather config.zip_code]) ∧
    (∀ wd z, Effect.recordTemperature wd z ∉
      (check_and_notify config db none send_result now).2) ∧
    Effect.getAppState ∉ (check_and_notify config db none send_result now).2 ∧
    (∀ m, Effect.sendMessage m ∉
      (check_and_notify config db none send_result now).2) ∧
    (∀ nt m s, Effect.recordNotification nt m s ∉
      (check_and_notify config db none send_result now).2) ∧
    (∀ ws md lnt, Effect.updateAppState ws md lnt ∉
      (check_and_notify config db none send_result now).2) := by
  refine ⟨rfl, ?_, ?_, ?_, ?_, ?_⟩ <;> simp [check_and_notify]

/-- C10: when the loaded app state's mode is neither cooling nor
heating, no notification type is proposed: the run records the
temperature reading and reads the app state, but sends nothing,
appends no notification record, and leaves the app-state row
unchanged. -/
theorem unknown_mode_spec (config : Config) (db : DBState)
    (weather_data : WeatherData) (send_result : Bool) (now : ℤ)
    (h1 : (get_app_state db config.default_mode).mode ≠ "cooling")
    (h2 : (get_app_state db config.default_mode).mode ≠ "heating") :
    check_and_notify config db (some weather_data) send_result now =
      (record_temperature db weather_data config.zip_code,
       [Effect.fetchWeather config.zip_code,
        Effect.recordTemperature weather_data config.zip_code,
        Effect.getAppState]) ∧
    (record_temperature db weather_data config.zip_code).app = db.app ∧
    (record_temperature db weather_data config.zip_code).notifications =
      db.notifications ∧
    (record_temperature db weather_data config.zip_code).temperature_readings =
      db.temperature_readings ++
        [{ current_temp := weather_data.current_temp
           daily_high_forecast := weather_data.daily_high
           daily_low_forecast := weather_data.daily_low
           zip_code := config.zip_code }] := by
  refine ⟨?_, rfl, rfl, rfl⟩
  simp only [check_and_notify]
  split_ifs with hc hh
  · exact absurd hc h1
  · exact absurd hh h2
  · rfl

/-- C7: the both-nil-or-both-set invariant on `last_notification_type`
and `last_notification_time` is preserved by every state-mutating
operation: `update_app_state` stamps `last_notification_time`
whenever it writes `last_notification_type` and changes neither
otherwise, the admin reset clears both together, and the admin
window-state and mode setters touch neither. -/
theorem notification_invariant_spec (db : DBState)
    (window_state mode last_notification_type : Option String)
    (forced_state forced_mode : String) (now : ℤ)
    (h : dbInvariant db = true) :
    dbInvariant (update_app_state db window_state mode
      last_notification_type now) = true ∧
    dbInvariant (reset_notification_state db now) = true ∧
    dbInvariant (set_window_state db forced_state now) = true ∧
    dbInvariant (set_mode db forced_mode now) = true ∧
    (∀ row, (reset_notification_state db now).app = some row →
      row.last_notification_type = none ∧
      row.last_notification_time = none) ∧
    (∀ row row', db.app = some row →
      (update_app_state db window_state mode last_notification_type now).app
        = some row' →
      ((row'.last_notification_type ≠ row.last_notification_type ∨
        row'.last_notification_time ≠ row.last_notification_time) →
       row'.last_notification_type = last_notification_type ∧
       row'.last_notification_time = some now)) := by
  cases hdb : db.app with
  | none =>
    refine ⟨?_, ?_, ?_, ?_, ?_, ?_⟩ <;>
      simp [update_app_state, reset_notification_state, set_window_state,
        set_mode, dbInvariant, hdb] <;> split_ifs <;> simp [hdb]
  | some row =>
    simp only [dbInvariant, hdb] at h
    refine ⟨?_, ?_, ?_, ?_, ?_, ?_⟩
    · cases last_notification_type with
      | none =>
        unfold update_app_state
        split_ifs <;> simp_all [dbInvariant, hdb, notifInvariant, truthy]
      | some s =>
        unfold update_app_state
        split_ifs <;> simp_all [dbInvariant, hdb, notifInvariant, truthy]
    · simp [reset_notification_state, dbInvariant, hdb, notifInvariant]
    · simp [set_window_state, dbInvariant, hdb, notifInvariant]
      simpa [notifInvariant] using h
    · simp [set_mode, dbInvariant, hdb, notifInvariant]
      simpa [notifInvariant] using h
    · simp [reset_notification_state, hdb]
    · intro r r' hr hr' hchange
      injection hr with hr
      subst hr
      by_cases hu : (truthy window_state || truthy mode ||
          truthy last_notification_type) = true
      · rw [update_app_state_app_pos db window_state mode
            last_notification_type now hu, hdb, Option.map_some'] at hr'
        injection hr' with hr'
        subst hr'
        by_cases hl : truthy last_notification_type = true
        · simp [hl]
        · rw [Bool.not_eq_true] at hl
          rcases hchange with hc | hc <;> simp [hl] at hc
      · rw [Bool.not_eq_true] at hu
        rw [update_app_state_neg db window_state mode
            last_notification_type now hu, hdb] at hr'
        injection hr' with hr'
        subst hr'
        rcases hchange with hc | hc <;> simp at hc

/-- C9 counterexample: a call of `update_app_state` that provides no
fields executes no `UPDATE` at all, so `updated_at` is not stamped —
refuting the claim that every call always stamps `updated_at`. -/
theorem update_state_stamp_counterexample :
    update_app_state sampleDB none none none 5 = sampleDB ∧
    (update_app_state sampleDB none none none 5).app.map
      AppStateRow.updated_at ≠ some (some 5) := by
  constructor
  · rfl
  · decide

/-- C9 (amended): when at least one (truthy) field is provided,
`update_app_state` sets exactly the provided fields — providing
`last_notification_type` additionally stamps
`last_notification_time` — leaves every other field and the history
tables unchanged, and stamps `updated_at`; a call providing no fields
leaves the database completely unchanged (no `updated_at` stamp). -/
theorem update_state_partial_spec (db : DBState)
    (window_state mode last_notification_type : Option String) (now : ℤ) :
    ((truthy window_state || truthy mode || truthy last_notification_type)
        = false →
      update_app_state db window_state mode last_notification_type now = db) ∧
    ((truthy window_state || truthy mode || truthy last_notification_type)
        = true →
      (update_app_state db window_state mode last_notification_type
          now).temperature_readings = db.temperature_readings ∧
      (update_app_state db window_state mode last_notification_type
          now).notifications = db.notifications ∧
      (db.app = none →
        update_app_state db window_state mode last_notification_type now
          = db) ∧
      ∀ row, db.app = some row → ∃ row',
        (update_app_state db window_state mode last_notification_type
          now).app = some row' ∧
        row'.updated_at = some now ∧
        (truthy window_state = false →
          row'.window_state = row.window_state) ∧
        (∀ s, window_state = some s → s ≠ "" → row'.window_state = s) ∧
        (truthy mode = false → row'.mode = row.mode) ∧
        (∀ s, mode = some s → s ≠ "" → row'.mode = s) ∧
        (truthy last_notification_type = false →
          row'.last_notification_type = row.last_notification_type ∧
          row'.last_notification_time = row.last_notification_time) ∧
        (∀ s, last_notification_type = some s → s ≠ "" →
          row'.last_notification_type = some s ∧
          row'.last_notification_time = some now)) := by
  constructor
  · intro hf
    unfold update_app_state
    rw [if_neg (by simp [hf])]
  · intro ht
    refine ⟨update_app_state_readings .., update_app_state_notifications ..,
      ?_, ?_⟩
    · intro hn
      obtain ⟨dapp, dtr, dnt⟩ := db
      replace hn : dapp = none := hn
      subst hn
      unfold update_app_state
      split_ifs <;> rfl
    · intro row hrow
      refine ⟨{ window_state :=
                  if truthy window_state then
                    window_state.getD row.window_state
                  else row.window_state
                mode := if truthy mode then mode.getD row.mode else row.mode
                last_notification_type :=
                  if truthy last_notification_type then
                    last_notification_type
                  else row.last_notification_type
                last_notification_time :=
                  if truthy last_notification_type then some now
                  else row.last_notification_time
                updated_at := some now },
        ?_, rfl, ?_, ?_, ?_, ?_, ?_, ?_⟩
      · unfold update_app_state
        rw [if_pos (by simp_all)]
        simp [hrow]
      · intro hf
        simp [hf]
      · intro s hs hne
        subst hs
        simp [truthy, hne]
      · intro hf
        simp [hf]
      · intro s hs hne
        subst hs
        simp [truthy, hne]
      · intro hf
        simp [hf]
      · intro s hs hne
        subst hs
        simp [truthy, hne]

/-- Witness for `cooling_mode_threshold_spec`: with windows closed and
current 75 at or below the open threshold 76, open is proposed. -/
theorem cooling_mode_threshold_spec_witness :
    check_cooling_mode_conditions sampleConfig ⟨75, 85, 60⟩
      ⟨"closed", "cooling", none, none⟩ = some "open_windows" :=
  ((cooling_mode_threshold_spec sampleConfig ⟨75, 85, 60⟩
    ⟨"closed", "cooling", none, none⟩).2.1).mpr ⟨rfl, by decide⟩

/-- Witness for `heating_mode_threshold_spec`: with windows open and
current 50 at or below the heating close threshold 55, close is
proposed. -/
theorem heating_mode_threshold_spec_witness :
    check_heating_mode_conditions sampleConfig ⟨50, 60, 40⟩
      ⟨"open", "heating", none, none⟩ = some "close_windows" :=
  ((heating_mode_threshold_spec sampleConfig ⟨50, 60, 40⟩
    ⟨"open", "heating", none, none⟩).1).mpr ⟨rfl, by decide⟩

/-- Witness for `temporal_gate_spec`: the 30-minutes-and-1-second
same-type case is permitted. -/
theorem temporal_gate_spec_witness :
    should_send_notification sampleConfig "close_windows"
      ⟨"open", "cooling", some "close_windows", some 27000⟩ 28801 = true :=
  (temporal_gate_spec sampleConfig "close_windows"
    ⟨"open", "cooling", some "close_windows", some 27000⟩ 28801).2.1

/-- Witness for `quiet_hours_spec`: 23:00 is inside the wrapping
sample window 22:30 to 07:00. -/
theorem quiet_hours_spec_witness :
    is_quiet_hours sampleConfig 82800 = true :=
  ((quiet_hours_spec sampleConfig 82800 (by decide) (by decide)).1
    (by decide)).mpr (by decide)

/-- Witness for `commit_protocol_spec`: a successful close-windows
send commits the closed window state and notification stamps. -/
theorem commit_protocol_spec_witness :
    (process_notification sampleConfig sampleDB "close_windows" ⟨78, 85, 65⟩
        ⟨"open", "cooling", none, none⟩ true 0).1.app =
      sampleDB.app.map fun row =>
        { window_state := "closed"
          mode := row.mode
          last_notification_type := some "close_windows"
          last_notification_time := some 0
          updated_at := some 0 } :=
  (commit_protocol_spec sampleConfig sampleDB "close_windows" ⟨78, 85, 65⟩
    ⟨"open", "cooling", none, none⟩ true 0).2.2.2.1 rfl rfl

/-- Witness for `decision_engine_frame_spec`: a run whose send fails
leaves the app-state row untouched. -/
theorem decision_engine_frame_spec_witness :
    (check_and_notify sampleConfig sampleDB (some ⟨78, 85, 65⟩) false 0).1.app
      = sampleDB.app :=
  (decision_engine_frame_spec sampleConfig sampleDB (some ⟨78, 85, 65⟩)
    false 0 "close_windows" ⟨78, 85, 65⟩
    ⟨"open", "cooling", none, none⟩).2.2.1 rfl

/-- Witness for `notification_invariant_spec`: the invariant holds on
the sample database and is preserved by a decision-engine update. -/
theorem notification_invariant_spec_witness :
    dbInvariant sampleDB = true ∧
    dbInvariant (update_app_state sampleDB (some "closed") none
      (some "close_windows") 7) = true :=
  ⟨by decide, (notification_invariant_spec sampleDB (some "closed") none
    (some "close_windows") "open" "heating" 7 (by decide)).1⟩

/-- Witness for `weather_failure_spec`: a concrete failed-fetch run
returns the database unchanged with only the fetch effect. -/
theorem weather_failure_spec_witness :
    check_and_notify sampleConfig sampleDB none true 0 =
      (sampleDB, [Effect.fetchWeather sampleConfig.zip_code]) :=
  (weather_failure_spec sampleConfig sampleDB true 0).1

/-- Witness for `update_state_partial_spec`: a call providing no
fields leaves the sample database unchanged. -/
theorem update_state_partial_spec_witness :
    update_app_state sampleDB none none none 9 = sampleDB :=
  (update_state_partial_spec sampleDB none none none 9).1 rfl

/-- Witness for `unknown_mode_spec`: with the sample row in mode
"off", the run only records the reading and reads the state. -/
theorem unknown_mode_spec_witness :
    check_and_notify sampleConfig sampleDBOff (some ⟨78, 85, 65⟩) true 0 =
      (record_temperature sampleDBOff ⟨78, 85, 65⟩ sampleConfig.zip_code,
       [Effect.fetchWeather sampleConfig.zip_code,
        Effect.recordTemperature ⟨78, 85, 65⟩ sampleConfig.zip_code,
        Effect.getAppState]) :=
  (unknown_mode_spec sampleConfig sampleDBOff ⟨78, 85, 65⟩ true 0
    (by decide) (by decide)).1

end TempChecker
